import Mathlib

/-!
Shallow embedding of the SparkRadarWXAPI data parser (`dataparser.js`):
the condition classifier `parseWeatherCondition`, the geometry helpers
`pointInRing` / `pointInPolygon`, the colour table `findColorForAlert`,
and the merger `parseWeatherData` with its five passes (SPC risks,
mesoscale discussions, alerts, minutely/hourly/daily forecasts, current
conditions).

Modelling conventions:
* JS numbers are modelled as exact rationals (`ℚ`).  The float literal
  `255.37222222222223` that the source compares converted temperatures
  against is exactly the IEEE double produced by `(0 - 32) * 5/9 + 273.15`,
  so it is modelled by the same rational expression (`sentinelK`).
* `undefined` and `null` are both modelled as `Option.none`; JS `||`
  fallbacks become the `jsOr*` helpers, which treat `0`, the empty string
  and `none` as falsy, exactly as JS does for the value shapes that occur.
* A thrown exception is modelled as `Except.error ()`; the source's
  per-section `try`/`catch` blocks become handlers of that `Except`.
* ISO date/time strings built with `toISOString` are modelled by the
  underlying numeric instant they render (the rendering is injective).
* String operations are implemented over `List Char` so that they compute
  by kernel reduction; only ASCII case folding is modelled, which covers
  every keyword the classifier and the parser search for.
-/

deriving instance DecidableEq for Except

/-- JS `a || b` for number-or-null values: `null`/`undefined` and `0` are
falsy. -/
def jsOrQ (a b : Option ℚ) : Option ℚ :=
  match a with
  | none => b
  | some x => if x = 0 then b else some x

/-- JS `a || b` for integer-or-null values. -/
def jsOrZ (a b : Option ℤ) : Option ℤ :=
  match a with
  | none => b
  | some x => if x = 0 then b else some x

/-- JS `a || b` for string-or-null values: the empty string is falsy. -/
def jsOrS (a b : Option String) : Option String :=
  match a with
  | none => b
  | some s => if s = "" then b else some s

/-- JS `Number(null) = 0`: a `null` operand of arithmetic coerces to `0`.
Used where the source does arithmetic directly on a possibly-null value. -/
def jsNum (a : Option ℚ) : ℚ := a.getD 0

/-- Truncation toward zero, the integer produced by JS `parseInt` on a
finite number. -/
def jsTrunc (x : ℚ) : ℤ := if 0 ≤ x then ⌊x⌋ else -⌊-x⌋

/-- JS `x.toFixed(2)` followed by `parseFloat`: round to two decimal
places, ties away from zero. -/
def jsToFixed2 (x : ℚ) : ℚ :=
  if 0 ≤ x then ((round (x * 100) : ℤ) : ℚ) / 100
  else -(((round (-x * 100) : ℤ) : ℚ) / 100)

/-- `safeParseFloat` of `dataparser.js` applied to a number-or-absent
value: `parseFloat` of a number is the number itself, of `undefined`/`null`
it is `NaN`, which the helper maps back to `null`. -/
def safeParseFloat (v : Option ℚ) : Option ℚ := v

/-- `safeParseInt` of `dataparser.js` applied to a number-or-absent value:
`parseInt` truncates a finite number toward zero and yields `NaN` (mapped
to `null`) on `undefined`/`null`. -/
def safeParseInt (v : Option ℚ) : Option ℤ := v.map jsTrunc

/-- ASCII lower-casing of one character (`String.prototype.toLowerCase`
restricted to the ASCII range, which covers all classifier keywords). -/
def charLower (c : Char) : Char :=
  if 65 ≤ c.toNat ∧ c.toNat ≤ 90 then Char.ofNat (c.toNat + 32) else c

/-- Whitespace for JS `String.prototype.trim`. -/
def isWsChar (c : Char) : Bool :=
  c = ' ' || c = '\t' || c = '\n' || c = '\r'

/-- `hay.includes(needle)` over character lists. -/
def listHasInfix (hay needle : List Char) : Bool :=
  match hay with
  | [] => needle.isEmpty
  | _ :: rest => needle.isPrefixOf hay || listHasInfix rest needle

/-- JS `hay.includes(needle)`. -/
def strContains (hay needle : String) : Bool :=
  listHasInfix hay.toList needle.toList

/-- Case-insensitive containment: `hay.toLowerCase().includes(needle)` for
a lower-case `needle`. -/
def strContainsLC (hay needle : String) : Bool :=
  listHasInfix (hay.toList.map charLower) needle.toList

/-- JS `String.prototype.split` over character lists, fuel-recursive; the
fuel `hay.length + 1` always suffices because every step consumes at least
one character of a nonempty haystack. -/
def splitAux (sep : List Char) : ℕ → List Char → List Char → List (List Char)
  | 0, hay, acc => [acc.reverse ++ hay]
  | _ + 1, [], acc => [acc.reverse]
  | n + 1, c :: rest, acc =>
    if sep ≠ [] ∧ sep.isPrefixOf (c :: rest) then
      acc.reverse :: splitAux sep n ((c :: rest).drop sep.length) []
    else
      splitAux sep n rest (c :: acc)

/-- JS `hay.split(sep)` for a nonempty separator. -/
def strSplitOn (hay sep : String) : List String :=
  (splitAux sep.toList (hay.toList.length + 1) hay.toList []).map
    (fun cs => String.mk cs)

/-- JS `s.replace(pat, '')` with a plain-string pattern: only the first
occurrence is removed. -/
def replaceFirst (s pat : String) : String :=
  match strSplitOn s pat with
  | [] => s
  | [x] => x
  | x :: y :: rest => x ++ String.mk (List.intercalate pat.toList
      ((y :: rest).map String.toList))

/-- JS `s.trim()`. -/
def strTrim (s : String) : String :=
  String.mk (((s.toList.dropWhile isWsChar).reverse.dropWhile isWsChar).reverse)

/-- JS `parseInt(s)`: skip leading whitespace, optional sign, then a
maximal run of decimal digits; no digits means `NaN`, modelled `none`. -/
def digitsVal (cs : List Char) : Option ℕ :=
  match cs.takeWhile Char.isDigit with
  | [] => none
  | ds => some (ds.foldl (fun a c => a * 10 + (c.toNat - 48)) 0)

/-- JS `parseInt` on a string. -/
def jsParseInt (s : String) : Option ℤ :=
  match s.toList.dropWhile isWsChar with
  | '-' :: rest => (digitsVal rest).map (fun n => -(n : ℤ))
  | '+' :: rest => (digitsVal rest).map (fun n => (n : ℤ))
  | cs => (digitsVal cs).map (fun n => (n : ℤ))

/-- A classified weather condition (`{ condition, code }`, optionally
carrying the raw unclassified text as `raw`; an absent `raw` field and a
`raw: null` field are both modelled as `none`). -/
structure Condition where
  condition : String
  code : ℕ
  raw : Option String := none
deriving DecidableEq

/-- JS `a || b` where `a` is an object-or-null: objects are always truthy. -/
def jsOrC (a b : Option Condition) : Option Condition :=
  match a with
  | none => b
  | some c => some c

/-- `parseWeatherCondition` of `dataparser.js`: ordered case-insensitive
substring heuristics mapping free text to a `Condition`; `null`/empty text
and unmatched text yield `none` (the JS function returns `null` or falls
through returning `undefined`). -/
def parseWeatherCondition (conditiontext : Option String) : Option Condition :=
  match conditiontext with
  | none => none
  | some t =>
    if t = "" then none
    else
      let has : String → Bool := fun n => strContainsLC t n
      if has "shower" then
        if has "light" then
          if has "rain" then some ⟨"Light Rain Showers", 612, none⟩
          else if has "snow" then some ⟨"Light Snow Showers", 611, none⟩
          else none
        else if has "heavy" then
          if has "rain" then some ⟨"Heavy Rain Showers", 632, none⟩
          else if has "snow" then some ⟨"Heavy Snow Showers", 631, none⟩
          else none
        else
          if has "rain" then some ⟨"Rain Showers", 622, none⟩
          else if has "snow" then some ⟨"Snow Showers", 621, none⟩
          else none
      else if has "rain" then
        if has "light" then some ⟨"Light Rain", 611, none⟩
        else if has "heavy" then some ⟨"Heavy Rain", 613, none⟩
        else some ⟨"Rain", 612, none⟩
      else if has "snow" then
        if has "light" then some ⟨"Light Snow", 621, none⟩
        else if has "heavy" then some ⟨"Heavy Snow", 623, none⟩
        else some ⟨"Snow", 622, none⟩
      else if has "storm" || has "thunder" then
        if has "light" then some ⟨"Light Storm", 631, none⟩
        else if has "heavy" then some ⟨"Heavy Storm", 633, none⟩
        else some ⟨"Storm", 632, none⟩
      else if has "fog" || has "mist" then some ⟨"Fog", 800, none⟩
      else if has "haze" || has "hazy" then some ⟨"Haze", 700, none⟩
      else if has "cloud" then
        if has "mostly" then some ⟨"Mostly Cloudy", 540, none⟩
        else if has "partly" || has "broken" then some ⟨"Partly Cloudy", 330, none⟩
        else some ⟨"Cloudy", 500, none⟩
      else if has "clear" || has "sun" || has "fair" then
        if has "mostly" then some ⟨"Mostly Clear", 240, none⟩
        else if has "partly" then some ⟨"Partly Cloudy", 330, none⟩
        else some ⟨"Clear", 100, none⟩
      else none

/-- C9: the condition classifier is a deterministic function (it is a pure
definition) and on the four sample inputs of the spec it returns exactly
the documented results: "Light Snow Showers" ↦ code 611 with the same
name, "Heavy Thunderstorm" ↦ "Heavy Storm" 633, the empty string and
`null` ↦ `null`, and "partly sunny" ↦ "Partly Cloudy" 330. -/
theorem C9_classifier_examples :
    parseWeatherCondition (some "Light Snow Showers") =
      some ⟨"Light Snow Showers", 611, none⟩ ∧
    parseWeatherCondition (some "Heavy Thunderstorm") =
      some ⟨"Heavy Storm", 633, none⟩ ∧
    parseWeatherCondition (some "") = none ∧
    parseWeatherCondition none = none ∧
    parseWeatherCondition (some "partly sunny") =
      some ⟨"Partly Cloudy", 330, none⟩ := by
  refine ⟨?_, ?_, ?_, ?_, ?_⟩ <;> decide

/-- A query point, `(longitude, latitude)` in the upstream coordinate
order. -/
abbrev GeoPoint := ℚ × ℚ

/-- The trailing-edge pairing of the ray-casting loop: edge `i` of the
ring joins `ring[i]` to `ring[j]` where `j` starts at the last index and
then trails `i` by one. -/
def ringEdges (ring : List GeoPoint) : List (GeoPoint × GeoPoint) :=
  match ring.getLast? with
  | none => []
  | some last => ring.zip (last :: ring.dropLast)

/-- One iteration of `pointInRing`'s crossing test: the edge toggles the
parity when the two endpoints straddle the horizontal through the point
and the point lies left of the edge's crossing abscissa.  When the guard
holds the two `y` values differ, so the division is by a nonzero value,
exactly as in the short-circuiting JS conjunction. -/
def edgeCross (p : GeoPoint) (e : GeoPoint × GeoPoint) : Bool :=
  if (¬((e.1.2 > p.2) ↔ (e.2.2 > p.2))) ∧
      p.1 < (e.2.1 - e.1.1) * (p.2 - e.1.2) / (e.2.2 - e.1.2) + e.1.1
  then true else false

/-- `pointInRing` of `dataparser.js`: even-odd ray casting. -/
def pointInRing (p : GeoPoint) (ring : List GeoPoint) : Bool :=
  (ringEdges ring).foldl (fun inside e => if edgeCross p e then !inside else inside)
    false

/-- `pointInPolygon` of `dataparser.js`: outer ring must contain the
point and no hole ring may; an empty polygon is `false`. -/
def pointInPolygon (p : GeoPoint) (polygon : List (List GeoPoint)) : Bool :=
  match polygon with
  | [] => false
  | outer :: holes => pointInRing p outer && !(holes.any (fun h => pointInRing p h))

/-- A GeoJSON-like geometry as the parser inspects it: it only ever looks
at `type === 'Polygon'` and `type === 'MultiPolygon'`; anything else is
ignored. -/
inductive Geometry where
  | polygon (coords : List (List GeoPoint))
  | multiPolygon (coords : List (List (List GeoPoint)))
  | other
deriving DecidableEq

/-- Containment of a point in a feature geometry: a `Polygon` directly, a
`MultiPolygon` through any member polygon (the source's `checkPolygon`
per-member calls update the same best feature, which is equivalent to this
disjunction). -/
def geometryContains (p : GeoPoint) (g : Geometry) : Bool :=
  match g with
  | .polygon c => pointInPolygon p c
  | .multiPolygon cs => cs.any (fun poly => pointInPolygon p poly)
  | .other => false

/-- The properties of an SPC outlook feature that the risk loop reads. -/
structure RiskProps where
  DN : Option ℚ
  LABEL : Option String
  LABEL2 : Option String
  fill : Option String
  stroke : Option String
deriving DecidableEq

/-- One feature of an outlook document; `geometry` and `properties` may be
absent, in which case the loop skips the feature. -/
structure OutlookFeature where
  geometry : Option Geometry
  properties : Option RiskProps
deriving DecidableEq

/-- One outlook document (`features` may be absent). -/
structure Outlook where
  features : Option (List OutlookFeature)
deriving DecidableEq

/-- The priority rank the loop compares, `properties.DN ?? 0`. -/
def rankP (pr : RiskProps) : ℚ := pr.DN.getD 0

/-- Rank of a feature (`0` when it has no properties; such a feature is
never a candidate anyway). -/
def rankOfF (f : OutlookFeature) : ℚ :=
  match f.properties with
  | some pr => rankP pr
  | none => 0

/-- Whether a feature is a containing candidate: it has geometry and
properties and its geometry contains the point. -/
def candB (p : GeoPoint) (f : OutlookFeature) : Bool :=
  match f.geometry, f.properties with
  | some g, some _ => geometryContains p g
  | _, _ => false

/-- One step of the best-feature scan: a containing candidate replaces the
running best when there is none yet or when its `DN ?? 0` is strictly
larger. -/
def riskStep (p : GeoPoint) (best : Option RiskProps) (f : OutlookFeature) :
    Option RiskProps :=
  match f.geometry, f.properties with
  | some g, some pr =>
    if geometryContains p g then
      match best with
      | none => some pr
      | some b => if rankP b < rankP pr then some pr else some b
    else best
  | _, _ => best

/-- The best containing feature's properties after scanning all features. -/
def findBest (p : GeoPoint) (fs : List OutlookFeature) : Option RiskProps :=
  fs.foldl (riskStep p) none

/-- The emitted risk record (the ISO date stamp "today + i" is modelled by
the day number `date`). -/
structure RiskRecord where
  date : ℤ
  level : Option String
  description : Option String
  color : Option String
  altcolor : Option String
deriving DecidableEq

/-- Record construction for one outlook day: the best feature's
`LABEL`/`LABEL2`/`fill`/`stroke`, or the "NONE" default. -/
def mkRiskRecord (date : ℤ) : Option RiskProps → RiskRecord
  | some pr =>
    { date := date, level := pr.LABEL, description := pr.LABEL2,
      color := pr.fill, altcolor := pr.stroke }
  | none =>
    { date := date, level := some "NONE",
      description := some "No thunderstorms forecast for this location.",
      color := none, altcolor := none }

/-- The SPC risk pass of `parseWeatherData`: one record per outlook
document, dates stamped `today + i` over the document index `i`. -/
def parseSpcRisks (p : GeoPoint) (today : ℤ) (spc_outlooks : Option (List Outlook)) :
    List RiskRecord :=
  match spc_outlooks with
  | none => []
  | some os =>
    os.enum.map (fun io => mkRiskRecord (today + io.1) (findBest p (io.2.features.getD [])))

lemma riskStep_not_cand (p : GeoPoint) (b : Option RiskProps) (f : OutlookFeature)
    (h : candB p f = false) : riskStep p b f = b := by
  unfold candB at h
  unfold riskStep
  rcases f with ⟨g, pr⟩
  rcases g with _ | g <;> rcases pr with _ | pr <;> simp_all

lemma riskStep_cases (p : GeoPoint) (b : Option RiskProps) (f : OutlookFeature) :
    riskStep p b f = b ∨ (candB p f = true ∧ riskStep p b f = f.properties) := by
  rcases f with ⟨g, pr⟩
  rcases g with _ | g <;> rcases pr with _ | pr <;>
    simp [riskStep, candB]
  by_cases hc : geometryContains p g
  · simp [hc]
    rcases b with _ | b
    · simp
    · by_cases hr : rankP b < rankP pr <;> simp [hr]
  · simp [hc]

lemma riskStep_some_mono (p : GeoPoint) (b : RiskProps) (f : OutlookFeature) :
    ∃ pr, riskStep p (some b) f = some pr ∧ rankP b ≤ rankP pr := by
  rcases f with ⟨g, prf⟩
  rcases g with _ | g
  · exact ⟨b, rfl, le_refl _⟩
  · rcases prf with _ | prf
    · exact ⟨b, rfl, le_refl _⟩
    · by_cases hc : geometryContains p g
      · by_cases hr : rankP b < rankP prf
        · exact ⟨prf, by simp [riskStep, hc, hr], le_of_lt hr⟩
        · exact ⟨b, by simp [riskStep, hc, hr], le_refl _⟩
      · exact ⟨b, by simp [riskStep, hc], le_refl _⟩

lemma riskStep_cand_ge (p : GeoPoint) (b : Option RiskProps) (f : OutlookFeature)
    (h : candB p f = true) :
    ∃ pr, riskStep p b f = some pr ∧ rankOfF f ≤ rankP pr := by
  rcases f with ⟨g, prf⟩
  rcases g with _ | g <;> rcases prf with _ | prf <;>
    simp [candB] at h
  have hrank : rankOfF ⟨some g, some prf⟩ = rankP prf := rfl
  rcases b with _ | b
  · exact ⟨prf, by simp [riskStep, h], by rw [hrank]⟩
  · by_cases hr : rankP b < rankP prf
    · exact ⟨prf, by simp [riskStep, h, hr], by rw [hrank]⟩
    · exact ⟨b, by simp [riskStep, h, hr], by rw [hrank]; exact le_of_not_lt hr⟩

lemma riskFold_mono (p : GeoPoint) :
    ∀ (fs : List OutlookFeature) (b : RiskProps),
      ∃ pr, fs.foldl (riskStep p) (some b) = some pr ∧ rankP b ≤ rankP pr := by
  intro fs
  induction fs with
  | nil => exact fun b => ⟨b, rfl, le_refl _⟩
  | cons f fs ih =>
    intro b
    obtain ⟨pr1, h1, h2⟩ := riskStep_some_mono p b f
    obtain ⟨pr2, h3, h4⟩ := ih pr1
    exact ⟨pr2, by simpa [h1] using h3, le_trans h2 h4⟩

lemma riskFold_provenance (p : GeoPoint) :
    ∀ (fs : List OutlookFeature) (b : Option RiskProps),
      fs.foldl (riskStep p) b = b ∨
      ∃ f ∈ fs, candB p f = true ∧ fs.foldl (riskStep p) b = f.properties := by
  intro fs
  induction fs with
  | nil => exact fun b => Or.inl rfl
  | cons f fs ih =>
    intro b
    rcases riskStep_cases p b f with h | ⟨hc, h⟩
    · rcases ih (riskStep p b f) with h2 | ⟨g, hg, hgc, h2⟩
      · exact Or.inl (by simpa [h] using h2)
      · exact Or.inr ⟨g, by simp [hg], hgc, h2⟩
    · rcases ih (riskStep p b f) with h2 | ⟨g, hg, hgc, h2⟩
      · exact Or.inr ⟨f, by simp, hc, by simpa [h] using h2⟩
      · exact Or.inr ⟨g, by simp [hg], hgc, h2⟩

lemma riskFold_ge (p : GeoPoint) :
    ∀ (fs : List OutlookFeature) (b : Option RiskProps) (f : OutlookFeature),
      f ∈ fs → candB p f = true →
      ∃ pr, fs.foldl (riskStep p) b = some pr ∧ rankOfF f ≤ rankP pr := by
  intro fs
  induction fs with
  | nil => intro b f h; exact absurd h (List.not_mem_nil f)
  | cons g fs ih =>
    intro b f hmem hc
    rcases List.mem_cons.mp hmem with rfl | hmem2
    · obtain ⟨pr1, h1, h2⟩ := riskStep_cand_ge p b f hc
      obtain ⟨pr2, h3, h4⟩ := riskFold_mono p fs pr1
      exact ⟨pr2, by simpa [h1] using h3, le_trans h2 h4⟩
    · exact (by simpa using ih (riskStep p b g) f hmem2 hc)

lemma findBest_none_of_no_cand (p : GeoPoint) (fs : List OutlookFeature)
    (h : ∀ f ∈ fs, candB p f = false) : findBest p fs = none := by
  unfold findBest
  induction fs with
  | nil => rfl
  | cons f fs ih =>
    have h1 : riskStep p none f = none := riskStep_not_cand p none f (h f (by simp))
    simpa [h1] using ih (fun g hg => h g (by simp [hg]))

/-- A sample query point and a unit-square ring containing it, shared by
the concrete instances below. -/
def samplePt : GeoPoint := (1/2, 1/2)

def unitRing : List GeoPoint := [(0, 0), (1, 0), (1, 1), (0, 1)]

lemma samplePt_in_unitSquare : pointInPolygon samplePt [unitRing] = true := by
  norm_num [pointInPolygon, pointInRing, ringEdges, edgeCross, unitRing, samplePt]

/-- A rank-2 ("SLGT") outlook feature over the unit square. -/
def featDN2 : OutlookFeature :=
  { geometry := some (.polygon [unitRing]),
    properties := some
      { DN := some 2, LABEL := some "SLGT", LABEL2 := some "Slight Risk",
        fill := some "#f6f673", stroke := some "#d3a800" } }

/-- A rank-4 ("MDT") outlook feature over the same unit square. -/
def featDN4 : OutlookFeature :=
  { geometry := some (.polygon [unitRing]),
    properties := some
      { DN := some 4, LABEL := some "MDT", LABEL2 := some "Moderate Risk",
        fill := some "#e06666", stroke := some "#990000" } }

lemma findBest_tiebreak :
    findBest samplePt [featDN2, featDN4] = (featDN4.properties) := by
  have h := samplePt_in_unitSquare
  simp [findBest, riskStep, featDN2, featDN4, geometryContains, h, rankP]
  norm_num

/-- C3: over any outlook document, a best feature returned by the scan is
a containing candidate whose priority rank (`DN ?? 0`) is maximal among
all containing candidates, and its `LABEL`/`LABEL2`/`fill`/`stroke` become
the emitted record's fields; if no feature contains the point the emitted
record's level is "NONE"; and on the concrete two-feature document with
ranks 2 and 4 both containing the point, the emitted level is the rank-4
feature's label "MDT". -/
theorem C3_risk_highest_priority :
    (∀ (p : GeoPoint) (fs : List OutlookFeature) (pr : RiskProps),
        findBest p fs = some pr →
        (∃ f ∈ fs, candB p f = true ∧ f.properties = some pr) ∧
        ∀ f ∈ fs, candB p f = true → rankOfF f ≤ rankP pr) ∧
    (∀ (d : ℤ) (pr : RiskProps),
        mkRiskRecord d (some pr) =
          { date := d, level := pr.LABEL, description := pr.LABEL2,
            color := pr.fill, altcolor := pr.stroke }) ∧
    (∀ (p : GeoPoint) (fs : List OutlookFeature),
        (∀ f ∈ fs, candB p f = false) →
        (mkRiskRecord 0 (findBest p fs)).level = some "NONE") ∧
    (mkRiskRecord 0 (findBest samplePt [featDN2, featDN4])).level = some "MDT" := by
  refine ⟨?_, ?_, ?_, ?_⟩
  · intro p fs pr hbest
    constructor
    · rcases riskFold_provenance p fs none with h | ⟨f, hf, hc, h⟩
      · rw [findBest] at hbest; rw [hbest] at h; exact absurd h (by simp)
      · exact ⟨f, hf, hc, by rw [← h, ← findBest, hbest]⟩
    · intro f hf hc
      obtain ⟨pr2, h1, h2⟩ := riskFold_ge p fs none f hf hc
      rw [← findBest] at h1
      rw [hbest] at h1
      injection h1 with h1
      rw [h1]
      exact h2
  · intro d pr; rfl
  · intro p fs h
    rw [findBest_none_of_no_cand p fs h]
    rfl
  · rw [findBest_tiebreak]
    rfl

/-- Concrete instantiation of `C3_risk_highest_priority`: on the sample
two-feature document, its first conjunct applied at the rank-4 feature's
properties. -/
theorem C3_risk_highest_priority_witness :
    (∃ f ∈ [featDN2, featDN4], candB samplePt f = true ∧
        f.properties = some
          { DN := some 4, LABEL := some "MDT", LABEL2 := some "Moderate Risk",
            fill := some "#e06666", stroke := some "#990000" }) ∧
    ∀ f ∈ [featDN2, featDN4], candB samplePt f = true →
      rankOfF f ≤ rankP
        { DN := some 4, LABEL := some "MDT", LABEL2 := some "Moderate Risk",
          fill := some "#e06666", stroke := some "#990000" } :=
  C3_risk_highest_priority.1 samplePt [featDN2, featDN4] _
    (by rw [findBest_tiebreak]; rfl)

/-- A UTC instant, modelled by its calendar components (year, month, day
in UTC) plus milliseconds within the day; `Date` comparison via epoch
milliseconds coincides with the lexicographic comparison below for
in-range components. -/
structure UtcTime where
  y : ℤ
  mo : ℤ
  d : ℤ
  ms : ℤ
deriving DecidableEq

/-- `a <= b` on `Date` values (epoch-millisecond order), lexicographic on
the calendar components. -/
def utcLe (a b : UtcTime) : Bool :=
  if a.y < b.y then true else if b.y < a.y then false
  else if a.mo < b.mo then true else if b.mo < a.mo then false
  else if a.d < b.d then true else if b.d < a.d then false
  else if a.ms ≤ b.ms then true else false

/-- The properties of a mesoscale-discussion feature that the filter
reads; `idpFiledate` is the parsed `idp_filedate` timestamp, `none` when
the field is missing or does not parse (an Invalid Date). -/
structure McdProps where
  folderpath : Option String
  idpFiledate : Option UtcTime
  name : Option String
  popupinfo : Option String
deriving DecidableEq

/-- One mesoscale-discussion feature. -/
structure Mcd where
  geometry : Option Geometry
  properties : Option McdProps
deriving DecidableEq

/-- The retained-discussion record pushed by the filter (ISO strings
modelled by their instants). -/
structure McdRecord where
  geometry : Geometry
  number : Option ℤ
  issued : UtcTime
  expires : Option UtcTime
  url : Option String
  title : Option String
deriving DecidableEq

/-- `mcd?.properties?.folderpath || ''`. -/
def mcdFolder (m : Mcd) : String :=
  (m.properties.bind McdProps.folderpath).getD ""

/-- The expiry clock-time token: the text after the first "Till", with
the first "UTC" removed and trimmed; `null` when there is no "Till" or
the remainder trims to the empty string. -/
def mcdTimeStr (m : Mcd) : Option String :=
  let folder := mcdFolder m
  if strContains folder "Till" then
    match (strSplitOn folder "Till").get? 1 with
    | none => none
    | some s => jsOrS (some (strTrim (replaceFirst s "UTC"))) none
  else none

/-- The `/^\d\d\d\d$/`-shaped test on the extracted token: exactly four
decimal digits. -/
def isHHMM (s : String) : Bool :=
  s.toList.length = 4 && s.toList.all Char.isDigit

/-- The reconstructed expiry instant: the HHMM token combined with the
UTC date portion of the issued timestamp; `none` whenever the token is
missing/malformed or the issued timestamp is invalid. -/
def mcdExpiry (m : Mcd) : Option UtcTime :=
  match mcdTimeStr m with
  | none => none
  | some ts =>
    if isHHMM ts then
      match m.properties.bind McdProps.idpFiledate with
      | none => none
      | some issue =>
        let hh : ℤ := ((digitsVal (ts.toList.take 2)).getD 0 : ℕ)
        let mm : ℤ := ((digitsVal (ts.toList.drop 2)).getD 0 : ℕ)
        some ⟨issue.y, issue.mo, issue.d, hh * 3600000 + mm * 60000⟩
    else none

/-- Spatial test of the filter (Polygon or MultiPolygon; anything else
leaves `containsPoint` false). -/
def mcdContainsB (p : GeoPoint) (m : Mcd) : Bool :=
  match m.geometry with
  | none => false
  | some g => geometryContains p g

/-- Temporal test: with a known expiry keep only while `now <= expiry`;
with an unknown expiry keep. -/
def mcdActiveB (now : UtcTime) (m : Mcd) : Bool :=
  match mcdExpiry m with
  | none => true
  | some e => utcLe now e

/-- Whether the issued timestamp parses to a valid date; when it does
not, `toISOString()` in the record construction throws. -/
def mcdDateValidB (m : Mcd) : Bool :=
  (m.properties.bind McdProps.idpFiledate).isSome

/-- `parseInt((name || '').replace('MD ', '')) || null`. -/
def mcdNumber (m : Mcd) : Option ℤ :=
  jsOrZ (jsParseInt (replaceFirst ((m.properties.bind McdProps.name).getD "") "MD "))
    none

/-- Processing of one mesoscale-discussion feature: skip without
geometry; on passing the spatial and temporal tests, build the record —
which throws (`.error`) when the issued timestamp is an Invalid Date,
because `toISOString()` is called on it. -/
def processMcd (now : UtcTime) (p : GeoPoint) (m : Mcd) :
    Except Unit (Option McdRecord) :=
  match m.geometry with
  | none => .ok none
  | some g =>
    if mcdContainsB p m && mcdActiveB now m then
      match m.properties.bind McdProps.idpFiledate with
      | none => .error ()
      | some issue =>
        .ok (some
          { geometry := g
            number := mcdNumber m
            issued := issue
            expires := mcdExpiry m
            url := jsOrS (m.properties.bind McdProps.popupinfo) none
            title := jsOrS (m.properties.bind McdProps.folderpath)
              (jsOrS (m.properties.bind McdProps.name) none) })
    else .ok none

/-- The whole mesoscale pass over the feature list: an error thrown by
one feature is caught by the surrounding `try`/`catch`, which stops the
loop but keeps the records accumulated so far. -/
def mcdRun (now : UtcTime) (p : GeoPoint) : List Mcd → List McdRecord
  | [] => []
  | m :: rest =>
    match processMcd now p m with
    | .error _ => []
    | .ok none => mcdRun now p rest
    | .ok (some r) => r :: mcdRun now p rest

/-- The `raw_mcd?.data?.features` input shape. -/
structure McdData where
  features : Option (List Mcd)
deriving DecidableEq

structure McdFeed where
  data : Option McdData
deriving DecidableEq

/-- The mesoscale pass of `parseWeatherData`. -/
def parseMcds (now : UtcTime) (p : GeoPoint) (raw_mcd : Option McdFeed) :
    List McdRecord :=
  mcdRun now p (((raw_mcd.bind McdFeed.data).bind McdData.features).getD [])

/-- Whether one feature ends up retained when the pass reaches it. -/
def mcdRetainedB (now : UtcTime) (p : GeoPoint) (m : Mcd) : Bool :=
  match processMcd now p m with
  | .ok (some _) => true
  | _ => false

/-- A containing discussion whose issued timestamp is invalid and whose
"Till" token is malformed (not four digits). -/
def badMcd : Mcd :=
  { geometry := some (.polygon [unitRing]),
    properties := some
      { folderpath := some "MD 0099 Active Till 23X5 UTC",
        idpFiledate := none, name := some "MD 0099", popupinfo := none } }

/-- A well-formed containing discussion. -/
def goodMcd : Mcd :=
  { geometry := some (.polygon [unitRing]),
    properties := some
      { folderpath := some "MD 0045 Active Till 2345 UTC",
        idpFiledate := some ⟨2025, 4, 10, 0⟩,
        name := some "MD 0045",
        popupinfo := some "https://www.spc.noaa.gov/md45" } }

/-- The record the pass builds for `goodMcd`. -/
def goodMcdRecord : McdRecord :=
  { geometry := Geometry.polygon [unitRing], number := some 45,
    issued := ⟨2025, 4, 10, 0⟩, expires := some ⟨2025, 4, 10, 85500000⟩,
    url := some "https://www.spc.noaa.gov/md45",
    title := some "MD 0045 Active Till 2345 UTC" }

/-- A sample "now" no later than `goodMcd`'s expiry. -/
def nowSample : UtcTime := ⟨2025, 4, 10, 0⟩

lemma badMcd_contains : mcdContainsB samplePt badMcd = true := by
  simp [mcdContainsB, badMcd, geometryContains]
  exact samplePt_in_unitSquare

lemma goodMcd_contains : mcdContainsB samplePt goodMcd = true := by
  simp [mcdContainsB, goodMcd, geometryContains]
  exact samplePt_in_unitSquare

lemma processMcd_bad : processMcd nowSample samplePt badMcd = .error () := by
  have ha : mcdActiveB nowSample badMcd = true := by decide
  have hd : badMcd.properties.bind McdProps.idpFiledate = none := by decide
  simp only [processMcd,
    show badMcd.geometry = some (Geometry.polygon [unitRing]) from rfl,
    badMcd_contains, ha, hd, Bool.and_self, if_true]

lemma processMcd_good :
    processMcd nowSample samplePt goodMcd = .ok (some goodMcdRecord) := by
  have ha : mcdActiveB nowSample goodMcd = true := by decide
  have hd : goodMcd.properties.bind McdProps.idpFiledate =
      some ⟨2025, 4, 10, 0⟩ := by decide
  have hnum : mcdNumber goodMcd = some 45 := by decide
  have hexp : mcdExpiry goodMcd = some ⟨2025, 4, 10, 85500000⟩ := by decide
  have hurl : jsOrS (goodMcd.properties.bind McdProps.popupinfo) none =
      some "https://www.spc.noaa.gov/md45" := by decide
  have htitle : jsOrS (goodMcd.properties.bind McdProps.folderpath)
      (jsOrS (goodMcd.properties.bind McdProps.name) none) =
      some "MD 0045 Active Till 2345 UTC" := by decide
  simp only [processMcd,
    show goodMcd.geometry = some (Geometry.polygon [unitRing]) from rfl,
    goodMcd_contains, ha, hd, hnum, hexp, hurl, htitle, Bool.and_self, if_true,
    goodMcdRecord]

/-- C5 (counterexample): `badMcd`'s polygon contains the query point and
its "Till" token is "23X5", which is not four digits, so by the claim the
expiry is unknown and the discussion must be retained — yet the pass
returns no discussion for the one-feature feed (the record construction
throws on the invalid issued timestamp). -/
theorem C5_mcd_filter_cex :
    mcdContainsB samplePt badMcd = true ∧
    mcdTimeStr badMcd = some "23X5" ∧
    isHHMM "23X5" = false ∧
    parseMcds nowSample samplePt (some ⟨some ⟨some [badMcd]⟩⟩) = [] := by
  refine ⟨badMcd_contains, by decide, by decide, ?_⟩
  simp [parseMcds, mcdRun, processMcd_bad]

/-- C5 (amended): a discussion feature the pass reaches is retained if
and only if its polygon contains the point AND its expiry is unknown or
now ≤ expiry AND its issued timestamp parses to a valid date (otherwise
the record construction throws); and whenever the expiry is unknown — in
particular when the extracted token is not exactly 4 digits — the
temporal test passes regardless of time. -/
theorem C5_mcd_filter_retention :
    (∀ (now : UtcTime) (p : GeoPoint) (m : Mcd),
        mcdRetainedB now p m =
          (mcdContainsB p m && mcdActiveB now m && mcdDateValidB m)) ∧
    (∀ (now : UtcTime) (m : Mcd), mcdExpiry m = none → mcdActiveB now m = true) := by
  constructor
  · intro now p m
    rcases m with ⟨g, props⟩
    rcases g with _ | g
    · simp [mcdRetainedB, processMcd, mcdContainsB]
    · simp only [mcdRetainedB, processMcd]
      by_cases hca :
          (mcdContainsB p ⟨some g, props⟩ && mcdActiveB now ⟨some g, props⟩) = true
      · rw [if_pos hca]
        cases hd : props.bind McdProps.idpFiledate with
        | none =>
          have hv : mcdDateValidB ⟨some g, props⟩ = false := by
            simp [mcdDateValidB, hd]
          simp only [hd]
          simp [hca, hv]
        | some issue =>
          have hv : mcdDateValidB ⟨some g, props⟩ = true := by
            simp [mcdDateValidB, hd]
          simp only [hd]
          simp [hca, hv]
      · rw [if_neg hca]
        simp only [Bool.not_eq_true] at hca
        simp [hca]
  · intro now m h
    simp [mcdActiveB, h]

/-- Concrete instantiation of `C5_mcd_filter_retention`: the fails-open
conjunct applied to `badMcd`, whose expiry is unknown. -/
theorem C5_mcd_filter_retention_witness :
    mcdActiveB nowSample badMcd = true :=
  C5_mcd_filter_retention.2 nowSample badMcd (by decide)

/-- C6 (counterexample): in a two-feature feed whose first feature is
retained and whose second raises an error, the pass returns the first
feature's record — the result set after an error is not empty. -/
theorem C6_mcd_error_cex :
    processMcd nowSample samplePt badMcd = .error () ∧
    parseMcds nowSample samplePt (some ⟨some ⟨some [goodMcd, badMcd]⟩⟩) =
      [goodMcdRecord] := by
  refine ⟨processMcd_bad, ?_⟩
  simp [parseMcds, mcdRun, processMcd_good, processMcd_bad]

/-- C6 (amended): an error raised while processing one discussion stops
the pass at that feature: the discussions accumulated before it are kept
(the pass returns them, not the empty set), the remaining features are
skipped, and the overall response still completes because the error is
caught. -/
theorem C6_mcd_error_keeps_prefix :
    ∀ (now : UtcTime) (p : GeoPoint) (pre : List Mcd) (bad : Mcd) (post : List Mcd),
      (∀ m ∈ pre, processMcd now p m ≠ .error ()) →
      processMcd now p bad = .error () →
      mcdRun now p (pre ++ bad :: post) = mcdRun now p pre := by
  intro now p pre bad post hpre hbad
  induction pre with
  | nil => simp [mcdRun, hbad]
  | cons m rest ih =>
    have hm : processMcd now p m ≠ .error () := hpre m (by simp)
    have hrest : ∀ x ∈ rest, processMcd now p x ≠ .error () :=
      fun x hx => hpre x (by simp [hx])
    cases hpm : processMcd now p m with
    | error e => cases e; exact absurd hpm hm
    | ok r =>
      cases r with
      | none => simpa [mcdRun, hpm] using ih hrest
      | some rec => simpa [mcdRun, hpm] using ih hrest

/-- Concrete instantiation of `C6_mcd_error_keeps_prefix` on the
two-feature feed `[goodMcd, badMcd]`. -/
theorem C6_mcd_error_keeps_prefix_witness :
    mcdRun nowSample samplePt ([goodMcd] ++ badMcd :: []) =
      mcdRun nowSample samplePt [goodMcd] :=
  C6_mcd_error_keeps_prefix nowSample samplePt [goodMcd] badMcd []
    (by intro m hm
        simp only [List.mem_singleton] at hm
        rw [hm, processMcd_good]
        exact fun h => Except.noConfusion h)
    processMcd_bad

/-- `findColorForAlert` of `dataparser.js`: the fixed event→colour table
with the Warning/Watch/other substring default. -/
def findColorForAlert (event : String) : String :=
  match event with
  | "Air Quality Alert" => "#768b00"
  | "Avalanche Warning" => "#ff00ff"
  | "Dust Advisory" => "#706e00"
  | "Dust Storm Warning" => "#776b00"
  | "Flash Flood Emergency" => "#00ff00"
  | "Flash Flood Warning" => "#00ff00"
  | "Flood Advisory" => "#00538b"
  | "Flood Warning" => "#1E90FF"
  | "Flood Watch" => "#60fd82"
  | "Marine Weather Statement" => "#690083"
  | "PDS Tornado Warning" => "#e900dd"
  | "Severe Thunderstorm Warning" => "#f1a500"
  | "Snow Squall Warning" => "#0096aa"
  | "Special Marine Warning" => "#8b3300"
  | "Special Weather Statement" => "#eeff00"
  | "Tornado Emergency" => "#9f00e9"
  | "Tornado Warning" => "#e90000"
  | "Tropical Storm Watch" => "#3f0072"
  | "Winter Storm Warning" => "#00d4ff"
  | "Winter Weather Advisory" => "#0087af"
  | "Winter Storm Watch" => "#00aaff"
  | "Ice Storm Warning" => "#0047ab"
  | "High Wind Warning" => "#ff8000"
  | "Extreme Cold Warning" => "#00ffff"
  | "Heat Advisory" => "#ff7000"
  | "Heat Warning" => "#ff2000"
  | "Red Flag Warning" => "#ff00c8ff"
  | "Extreme Wind Warning" => "#d400ffff"
  | _ =>
    if strContains event "Warning" then "#FF0000"
    else if strContains event "Watch" then "#FFA500"
    else "#FFCC00"

/-- Global replacement of a plain-string pattern (JS `replace` with a
global regex of a literal): split on the pattern and rejoin. -/
def strReplaceAll (s pat rep : String) : String :=
  String.mk (List.intercalate rep.toList ((strSplitOn s pat).map String.toList))

/-- The alert text normalization: double newlines collapsed to single,
then all newlines replaced by spaces. -/
def collapseNL (s : String) : String :=
  strReplaceAll (strReplaceAll s "\n\n" "\n") "\n" " "

/-- The fields of a raw alert feature's `properties` that the loop reads. -/
structure AlertProps where
  id : Option String
  sent : Option String
  effective : Option String
  expires : Option String
  severity : Option String
  areaDesc : Option String
  event : Option String
  headline : Option String
  description : Option String
  instruction : Option String
deriving DecidableEq

/-- One raw alert feature. -/
structure AlertIn where
  properties : Option AlertProps
deriving DecidableEq

/-- The raw alert feed (`raw_alerts?.features`). -/
structure AlertFeed where
  features : Option (List AlertIn)
deriving DecidableEq

/-- The identity/timing half of a normalized alert; the source field
named `end` is called `ending` here (`end` is reserved). -/
structure AlertRecProps where
  id : Option String
  issued : Option String
  start : Option String
  ending : Option String
  severity : Option String
deriving DecidableEq

/-- The display half of a normalized alert. -/
structure AlertRecProduct where
  areas : Option String
  event : Option String
  color : Option String
  headline : Option String
  description : Option String
  instructions : Option String
deriving DecidableEq

/-- One normalized alert. -/
structure AlertRec where
  properties : AlertRecProps
  product : AlertRecProduct
deriving DecidableEq

/-- Processing of one alert feature.  A feature without `properties`
short-circuits every optional chain to `undefined`: the outlook test sees
a falsy value (no skip) and every field degrades to `null`.  A feature
with `properties` but without `event` throws on `.toLowerCase()`; one
whose event does not contain "outlook" but lacking `description` or
`instruction` throws on `.replace()`. -/
def processAlert (a : AlertIn) : Except Unit (Option AlertRec) :=
  match a.properties with
  | none =>
    .ok (some
      { properties :=
          { id := none, issued := none, start := none, ending := none,
            severity := none }
        product :=
          { areas := none, event := none,
            color := jsOrS (some (findColorForAlert "")) none,
            headline := none, description := none, instructions := none } })
  | some pr =>
    match pr.event with
    | none => .error ()
    | some ev =>
      if strContainsLC ev "outlook" then .ok none
      else
        match pr.description with
        | none => .error ()
        | some dsc =>
          match pr.instruction with
          | none => .error ()
          | some ins =>
            .ok (some
              { properties :=
                  { id := jsOrS pr.id none, issued := jsOrS pr.sent none,
                    start := jsOrS pr.effective none,
                    ending := jsOrS pr.expires none,
                    severity := jsOrS pr.severity none }
                product :=
                  { areas := jsOrS pr.areaDesc none
                    event := jsOrS pr.event none
                    color := jsOrS
                      (some (findColorForAlert ((jsOrS pr.event none).getD "")))
                      none
                    headline := jsOrS pr.headline none
                    description := jsOrS (some (collapseNL dsc)) none
                    instructions := jsOrS (some (collapseNL ins)) none } })

/-- The alert pass: the single `try`/`catch` wraps the whole `forEach`,
so a per-feature throw ends the loop keeping what was already pushed. -/
def alertsRun : List AlertIn → List AlertRec
  | [] => []
  | a :: rest =>
    match processAlert a with
    | .error _ => []
    | .ok none => alertsRun rest
    | .ok (some r) => r :: alertsRun rest

/-- The alert pass of `parseWeatherData`. -/
def parseAlerts (raw_alerts : Option AlertFeed) : List AlertRec :=
  alertsRun ((raw_alerts.bind AlertFeed.features).getD [])

/-- A fully-populated alert feature. -/
def goodAlert1 : AlertIn :=
  ⟨some
    { id := some "urn:oid:1", sent := some "2025-04-10T00:00:00Z",
      effective := some "2025-04-10T00:00:00Z",
      expires := some "2025-04-10T06:00:00Z", severity := some "Severe",
      areaDesc := some "Some County",
      event := some "Severe Thunderstorm Warning",
      headline := some "Severe Thunderstorm Warning until 6 PM",
      description := some "A storm.\n\nTake cover.",
      instruction := some "Move indoors." }⟩

/-- The normalized record for `goodAlert1`. -/
def goodAlert1Rec : AlertRec :=
  ⟨⟨some "urn:oid:1", some "2025-04-10T00:00:00Z", some "2025-04-10T00:00:00Z",
    some "2025-04-10T06:00:00Z", some "Severe"⟩,
   ⟨some "Some County", some "Severe Thunderstorm Warning", some "#f1a500",
    some "Severe Thunderstorm Warning until 6 PM", some "A storm. Take cover.",
    some "Move indoors."⟩⟩

/-- An alert feature with `properties` and `event` but no `description`
field: building its record throws on `.replace()`. -/
def badAlert : AlertIn :=
  ⟨some
    { id := some "urn:oid:2", sent := none, effective := none, expires := none,
      severity := none, areaDesc := none, event := some "Flood Watch",
      headline := none, description := none, instruction := some "x" }⟩

/-- Another fully-populated alert feature, appearing after `badAlert`. -/
def goodAlert2 : AlertIn :=
  ⟨some
    { id := some "urn:oid:3", sent := some "2025-04-10T01:00:00Z",
      effective := some "2025-04-10T01:00:00Z",
      expires := some "2025-04-11T01:00:00Z", severity := some "Moderate",
      areaDesc := some "Other County", event := some "Winter Storm Watch",
      headline := some "Winter Storm Watch in effect",
      description := some "Snow.", instruction := some "Drive slow." }⟩

/-- The normalized record for `goodAlert2`. -/
def goodAlert2Rec : AlertRec :=
  ⟨⟨some "urn:oid:3", some "2025-04-10T01:00:00Z", some "2025-04-10T01:00:00Z",
    some "2025-04-11T01:00:00Z", some "Moderate"⟩,
   ⟨some "Other County", some "Winter Storm Watch", some "#00aaff",
    some "Winter Storm Watch in effect", some "Snow.", some "Drive slow."⟩⟩

/-- C7 (counterexample): the second alert of the feed fails to parse (no
`description`), the third parses on its own — yet the loop's output
contains only the first record: the error aborted the remaining
features, so the loop is not best-effort per item. -/
theorem C7_alert_error_cex :
    processAlert badAlert = .error () ∧
    processAlert goodAlert2 = .ok (some goodAlert2Rec) ∧
    alertsRun [goodAlert1, badAlert, goodAlert2] = [goodAlert1Rec] := by
  refine ⟨by decide, by decide, by decide⟩

/-- C7 (amended): a parse error on one alert feature ends the loop at
that feature: alerts parsed before it are kept, and every feature after
it is dropped, parseable or not; the overall response still completes
because the error is caught outside the loop. -/
theorem C7_alert_error_aborts_loop :
    ∀ (pre : List AlertIn) (bad : AlertIn) (post : List AlertIn),
      (∀ a ∈ pre, processAlert a ≠ .error ()) →
      processAlert bad = .error () →
      alertsRun (pre ++ bad :: post) = alertsRun pre := by
  intro pre bad post hpre hbad
  induction pre with
  | nil => simp [alertsRun, hbad]
  | cons a rest ih =>
    have ha : processAlert a ≠ .error () := hpre a (by simp)
    have hrest : ∀ x ∈ rest, processAlert x ≠ .error () :=
      fun x hx => hpre x (by simp [hx])
    cases hpa : processAlert a with
    | error e => cases e; exact absurd hpa ha
    | ok r =>
      cases r with
      | none => simpa [alertsRun, hpa] using ih hrest
      | some rec => simpa [alertsRun, hpa] using ih hrest

/-- Concrete instantiation of `C7_alert_error_aborts_loop` on the feed
`[goodAlert1, badAlert, goodAlert2]`. -/
theorem C7_alert_error_aborts_loop_witness :
    alertsRun ([goodAlert1] ++ badAlert :: [goodAlert2]) =
      alertsRun [goodAlert1] :=
  C7_alert_error_aborts_loop [goodAlert1] badAlert [goodAlert2]
    (by decide) (by decide)

/-- One entry of an OWM `weather` array. -/
structure OwmWeatherItem where
  description : Option String
deriving DecidableEq

/-- `day.temp` of an OWM daily entry. -/
structure OwmDayTemp where
  min : Option ℚ
  max : Option ℚ
deriving DecidableEq

/-- One OWM daily entry (the fields the daily loop reads). -/
structure OwmDay where
  dt : Option ℚ
  sunrise : Option ℚ
  sunset : Option ℚ
  temp : Option OwmDayTemp
  weather : Option (List OwmWeatherItem)
  wind_speed : Option ℚ
  wind_deg : Option ℚ
deriving DecidableEq

/-- One OWM minutely entry. -/
structure OwmMinute where
  dt : Option ℚ
  precipitation : Option ℚ
deriving DecidableEq

/-- One OWM hourly entry. -/
structure OwmHour where
  dt : Option ℚ
  temp : Option ℚ
  feels_like : Option ℚ
  humidity : Option ℚ
  wind_speed : Option ℚ
  wind_deg : Option ℚ
  weather : Option (List OwmWeatherItem)
  clouds : Option ℚ
  pop : Option ℚ
deriving DecidableEq

/-- The OWM `current` block. -/
structure OwmCurrent where
  sunrise : Option ℚ
  sunset : Option ℚ
  temp : Option ℚ
  dew_point : Option ℚ
  humidity : Option ℚ
  wind_speed : Option ℚ
  wind_gust : Option ℚ
  wind_deg : Option ℚ
  clouds : Option ℚ
  visibility : Option ℚ
  pressure : Option ℚ
  weather : Option (List OwmWeatherItem)
deriving DecidableEq

/-- The OWM document. -/
structure Owm where
  current : Option OwmCurrent
  minutely : Option (List OwmMinute)
  hourly : Option (List OwmHour)
  daily : Option (List OwmDay)
deriving DecidableEq

/-- `raw_nws.time` (the flat `tempLabel` series). -/
structure NwsTime where
  tempLabel : Option (List (Option String))
deriving DecidableEq

/-- `raw_nws.data` (the parallel flat series). -/
structure NwsData where
  weather : Option (List (Option String))
  temperature : Option (List (Option ℚ))
  pop : Option (List (Option ℚ))
  text : Option (List (Option String))
deriving DecidableEq

/-- `raw_nws.currentobservation` (numeric fields modelled by their
numeric value, `none` for missing or non-numeric text; `Windd` is kept as
the raw string fed to `safeParseInt`). -/
structure NwsObs where
  Temp : Option ℚ
  Winds : Option ℚ
  Gust : Option ℚ
  Dewp : Option ℚ
  Visibility : Option ℚ
  SLP : Option ℚ
  Windd : Option String
  Weather : Option String
deriving DecidableEq

/-- `raw_nws.location`. -/
structure NwsLoc where
  wfo : Option String
  radar : Option String
deriving DecidableEq

/-- The national-service document. -/
structure Nws where
  time : Option NwsTime
  data : Option NwsData
  currentobservation : Option NwsObs
  location : Option NwsLoc
deriving DecidableEq

/-- The daily loop's safe-access helper:
`Array.isArray(xs) && xs.length > i ? xs[i] : null`. -/
def arrAt {α : Type} (xs : Option (List (Option α))) (i : ℕ) : Option α :=
  match xs with
  | none => none
  | some l => if i < l.length then l.getD i none else none

/-- Same helper for `pop`, whose out-of-range default is `0` rather than
`null`. -/
def popAt (xs : Option (List (Option ℚ))) (i : ℕ) : Option ℚ :=
  match xs with
  | none => some 0
  | some l => if i < l.length then l.getD i none else some 0

/-- The Unknown fallback condition record. -/
def unknownCond (raw : Option String) : Condition :=
  ⟨"Unknown", 0, raw⟩

/-- The night half of a daily record. -/
structure DailyNight where
  condition : Condition
  precipitation_probability : Option ℤ
deriving DecidableEq

/-- One merged daily record (`date`, `sunrise`, `sunset` ISO strings
modelled by the epoch value they are built from). -/
structure DailyRec where
  date : ℚ
  condition : Condition
  sunrise : ℚ
  sunset : ℚ
  high : Option ℚ
  low : Option ℚ
  precipitation_probability : Option ℤ
  wind_speed : Option ℚ
  wind_direction : Option ℤ
  description : Option String
  night : DailyNight
deriving DecidableEq

/-- One iteration of the daily loop at running flat-array index
`nwsindex` (the value after the loop-top `nwsindex++`): returns the
record pushed for this model day and the index at which the next
iteration starts.  The "High" branch consumes this slot and the next
(day/night pair) so the next start is `nwsindex + 2`; the "Low" and
fallback branches consume one slot. -/
def dailyStep (raw_nws : Option Nws) (nwsindex : ℕ) (day : OwmDay) :
    DailyRec × ℕ :=
  let nwsTempLabel := arrAt ((raw_nws.bind Nws.time).bind NwsTime.tempLabel) nwsindex
  let nwsWeather := arrAt ((raw_nws.bind Nws.data).bind NwsData.weather) nwsindex
  let nwsWeatherNext :=
    arrAt ((raw_nws.bind Nws.data).bind NwsData.weather) (nwsindex + 1)
  let nwsTempValue :=
    arrAt ((raw_nws.bind Nws.data).bind NwsData.temperature) nwsindex
  let nwsTempValueNext :=
    arrAt ((raw_nws.bind Nws.data).bind NwsData.temperature) (nwsindex + 1)
  let nwsPop := popAt ((raw_nws.bind Nws.data).bind NwsData.pop) nwsindex
  let nwsPopNext := popAt ((raw_nws.bind Nws.data).bind NwsData.pop) (nwsindex + 1)
  let nwsText := arrAt ((raw_nws.bind Nws.data).bind NwsData.text) nwsindex
  let dayWeatherDesc :=
    match day.weather with
    | some (w :: _) => w.description
    | _ => none
  if raw_nws.isSome ∧ nwsTempLabel = some "High" then
    ({ date := day.dt.getD 0
       condition :=
         (jsOrC (parseWeatherCondition (jsOrS nwsWeather none))
           (parseWeatherCondition (jsOrS dayWeatherDesc none))).getD
           (unknownCond dayWeatherDesc)
       sunrise := day.sunrise.getD 0
       sunset := day.sunset.getD 0
       high := jsOrQ (safeParseFloat (some (jsNum nwsTempValue * 5 / 9 + 273.15)))
         (jsOrQ (safeParseFloat (day.temp.bind OwmDayTemp.max)) none)
       low := jsOrQ (safeParseFloat (some (jsNum nwsTempValueNext * 5 / 9 + 273.15)))
         (jsOrQ (safeParseFloat (day.temp.bind OwmDayTemp.min)) none)
       precipitation_probability := jsOrZ (safeParseInt nwsPop) none
       wind_speed := jsOrQ (safeParseFloat day.wind_speed) none
       wind_direction := jsOrZ (safeParseInt day.wind_deg) none
       description := jsOrS nwsText none
       night :=
         { condition :=
             (parseWeatherCondition (jsOrS nwsWeatherNext none)).getD
               (unknownCond nwsWeatherNext)
           precipitation_probability := jsOrZ (safeParseInt nwsPopNext) none } },
     nwsindex + 2)
  else if raw_nws.isSome ∧ nwsTempLabel = some "Low" then
    ({ date := day.dt.getD 0
       condition :=
         (parseWeatherCondition (jsOrS dayWeatherDesc none)).getD
           (unknownCond dayWeatherDesc)
       sunrise := day.sunrise.getD 0
       sunset := day.sunset.getD 0
       high := jsOrQ (safeParseFloat (day.temp.bind OwmDayTemp.max)) none
       low := jsOrQ (safeParseFloat (some (jsNum nwsTempValue * 5 / 9 + 273.15)))
         (jsOrQ (safeParseFloat (day.temp.bind OwmDayTemp.min)) none)
       precipitation_probability := none
       wind_speed := jsOrQ (safeParseFloat day.wind_speed) none
       wind_direction := jsOrZ (safeParseInt day.wind_deg) none
       description := jsOrS nwsText none
       night :=
         { condition :=
             (parseWeatherCondition (jsOrS nwsWeather none)).getD
               (unknownCond nwsWeather)
           precipitation_probability := jsOrZ (safeParseInt nwsPop) none } },
     nwsindex + 1)
  else
    ({ date := day.dt.getD 0
       condition :=
         (parseWeatherCondition (jsOrS dayWeatherDesc none)).getD
           (unknownCond dayWeatherDesc)
       sunrise := day.sunrise.getD 0
       sunset := day.sunset.getD 0
       high := jsOrQ (safeParseFloat (day.temp.bind OwmDayTemp.max)) none
       low := jsOrQ (safeParseFloat (day.temp.bind OwmDayTemp.min)) none
       precipitation_probability := none
       wind_speed := jsOrQ (safeParseFloat day.wind_speed) none
       wind_direction := jsOrZ (safeParseInt day.wind_deg) none
       description := none
       night := { condition := unknownCond none, precipitation_probability := none } },
     nwsindex + 1)

/-- The daily loop over the model's daily array as spine, threading the
running flat-array index. -/
def dailyRun (raw_nws : Option Nws) : List OwmDay → ℕ → List DailyRec
  | [], _ => []
  | d :: rest, i =>
    (dailyStep raw_nws i d).1 :: dailyRun raw_nws rest (dailyStep raw_nws i d).2

/-- The daily pass of `parseWeatherData` (`nwsindex` starts at `-1` and
is incremented at the top of each iteration, so the first iteration runs
at index `0`). -/
def parseDaily (raw_owm : Option Owm) (raw_nws : Option Nws) : List DailyRec :=
  dailyRun raw_nws ((raw_owm.bind Owm.daily).getD []) 0

/-- A national-service document whose flat series is the spec's
`tempLabel = ["High","Low","High","Low"]` sample, with distinct
weather/temperature/pop/text entries per slot. -/
def nws4 : Nws :=
  { time := some ⟨some [some "High", some "Low", some "High", some "Low"]⟩
    data := some
      { weather := some [some "Light Rain", some "Heavy Snow", some "Fog", some "Haze"]
        temperature := some [some 72, some 50, some 68, some 45]
        pop := some [some 20, some 30, some 40, some 50]
        text := some [some "t0", some "t1", some "t2", some "t3"] }
    currentobservation := none
    location := none }

/-- Like `nws4` but with a "Low" label in the first slot. -/
def nwsLowFirst : Nws :=
  { time := some ⟨some [some "Low", some "High", some "Low"]⟩
    data := (nws4).data
    currentobservation := none
    location := none }

/-- First model day of the two-entry daily array. -/
def owmDay0 : OwmDay :=
  { dt := some 1744243200, sunrise := some 1744261200, sunset := some 1744308000,
    temp := some ⟨some 280, some 290⟩, weather := some [⟨some "broken clouds"⟩],
    wind_speed := some 5, wind_deg := some 180 }

/-- Second model day. -/
def owmDay1 : OwmDay :=
  { dt := some 1744329600, sunrise := some 1744347600, sunset := some 1744394400,
    temp := some ⟨some 281, some 291⟩, weather := some [⟨some "clear sky"⟩],
    wind_speed := some 4, wind_deg := some 170 }

/-- A model document with a 2-entry daily array. -/
def owm2 : Owm :=
  { current := none, minutely := none, hourly := none,
    daily := some [owmDay0, owmDay1] }

/-- C4: the daily merge's index discipline.  At a "High" label the
iteration hands the next iteration index `i + 2` (this slot and the next
are consumed as a day/night pair); at a "Low" label it hands `i + 1`.
Consequently, against `tempLabel = ["High","Low","High","Low"]` and a
2-entry model daily array the merger consumes slot pairs (0,1) and (2,3)
and produces exactly 2 records whose day and night segments carry the
conditions, temperatures, pops and texts of those slots. -/
theorem C4_daily_high_low_pairing :
    (dailyStep (some nws4) 0 owmDay0).2 = 2 ∧
    (dailyStep (some nws4) 2 owmDay1).2 = 4 ∧
    (dailyStep (some nwsLowFirst) 0 owmDay0).2 = 1 ∧
    (parseDaily (some owm2) (some nws4)).length = 2 ∧
    ((parseDaily (some owm2) (some nws4)).map DailyRec.condition) =
      [⟨"Light Rain", 611, none⟩, ⟨"Fog", 800, none⟩] ∧
    ((parseDaily (some owm2) (some nws4)).map (fun r => r.night.condition)) =
      [⟨"Heavy Snow", 623, none⟩, ⟨"Haze", 700, none⟩] ∧
    ((parseDaily (some owm2) (some nws4)).map DailyRec.high) =
      [some (72 * 5 / 9 + 273.15), some (68 * 5 / 9 + 273.15)] ∧
    ((parseDaily (some owm2) (some nws4)).map DailyRec.low) =
      [some (50 * 5 / 9 + 273.15), some (45 * 5 / 9 + 273.15)] ∧
    ((parseDaily (some owm2) (some nws4)).map DailyRec.precipitation_probability) =
      [some 20, some 40] ∧
    ((parseDaily (some owm2) (some nws4)).map
        (fun r => r.night.precipitation_probability)) =
      [some 30, some 50] ∧
    ((parseDaily (some owm2) (some nws4)).map DailyRec.description) =
      [some "t0", some "t2"] := by
  have h1 : parseWeatherCondition (some "Light Rain") =
      some ⟨"Light Rain", 611, none⟩ := by decide
  have h2 : parseWeatherCondition (some "Fog") = some ⟨"Fog", 800, none⟩ := by
    decide
  have h3 : parseWeatherCondition (some "Heavy Snow") =
      some ⟨"Heavy Snow", 623, none⟩ := by decide
  have h4 : parseWeatherCondition (some "Haze") = some ⟨"Haze", 700, none⟩ := by
    decide
  refine ⟨?_, ?_, ?_, ?_, ?_, ?_, ?_, ?_, ?_, ?_, ?_⟩ <;>
    simp [parseDaily, dailyRun, dailyStep, arrAt, popAt, jsOrQ, jsOrZ, jsOrS,
      jsOrC, jsNum, safeParseFloat, safeParseInt, jsTrunc, nws4, nwsLowFirst,
      owm2, owmDay0, owmDay1, h1, h2, h3, h4] <;>
    norm_num

/-- The Fahrenheit→Kelvin conversion as the spec states it:
`F_to_K(f) = (f - 32) * 5/9 + 273.15`. -/
def spec_F_to_K (f : ℚ) : ℚ := (f - 32) * 5 / 9 + 273.15

/-- C2: in the daily merge the national-service temperature at a "High"
slot is used as `t * 5/9 + 273.15` — the `- 32` of the documented
`F_to_K` conversion is missing.  For the slot value 72 °F the day's high
becomes 313.15 K, while the spec's conversion gives ≈ 295.37 K; the two
differ. -/
theorem C2_daily_f_to_k_code_bug :
    ((parseDaily (some owm2) (some nws4)).map DailyRec.high).head? =
      some (some (72 * 5 / 9 + 273.15)) ∧
    (72 : ℚ) * 5 / 9 + 273.15 = 313.15 ∧
    spec_F_to_K 72 ≠ 72 * 5 / 9 + 273.15 := by
  refine ⟨?_, by norm_num, by norm_num [spec_F_to_K]⟩
  simp [parseDaily, dailyRun, dailyStep, arrAt, popAt, jsOrQ, jsOrZ, jsOrS,
    jsOrC, jsNum, safeParseFloat, safeParseInt, nws4, owm2, owmDay0, owmDay1]
  norm_num

/-- The sentinel "0 °F" Kelvin value the source hard-codes
(`255.37222222222223` as an IEEE double, which is exactly the double
computed by `(0 - 32) * 5/9 + 273.15`; modelled by the same rational
expression). -/
def sentinelK : ℚ := (0 - 32) * 5 / 9 + 273.15

/-- The converted national-service temperature-style observation
(`Temp`/`Dewp`): `((x || 0) - 32) * 5/9 + 273.15`, rejected when it
equals the sentinel. -/
def nwsTempToK (v : Option ℚ) : Option ℚ :=
  let t := (v.getD 0 - 32) * 5 / 9 + 273.15
  if t = sentinelK then none else some t

/-- The merged current temperature/dew-point field: the valid converted
national-service value rendered via `toFixed(2)`, else the model value
(`safeParseFloat(...) || null`).  Used for both `current.temperature`
and `current.dew_point`, whose source computations are identical. -/
def mergeTempField (nwsF owmF : Option ℚ) : Option ℚ :=
  match nwsTempToK nwsF with
  | some t => some (jsToFixed2 t)
  | none => jsOrQ (safeParseFloat owmF) none

/-- The converted national-service speed observation (`Winds`/`Gust`):
`(x || 0) * 0.44704`, rejected when zero. -/
def nwsSpeedToMs (v : Option ℚ) : Option ℚ :=
  let s := v.getD 0 * 0.44704
  if s = 0 then none else some s

/-- The merged current wind-speed/gust field. -/
def mergeSpeedField (nwsF owmF : Option ℚ) : Option ℚ :=
  match nwsSpeedToMs nwsF with
  | some s => safeParseFloat (some s)
  | none => jsOrQ (safeParseFloat owmF) none

/-- The two-stage visibility conversion inside the `try` block:
`(Visibility || 0) * 1.60934`, falling back to
`((owm.visibility / 1000) || 0) * 1.60934`, `null` when both are zero. -/
def nwsVisibility (nwsV owmV : Option ℚ) : Option ℚ :=
  let v1 := nwsV.getD 0 * 1.60934
  if v1 = 0 then
    let v2 := owmV.getD 0 / 1000 * 1.60934
    if v2 = 0 then none else some v2
  else some v1

/-- The emitted `current.visibility`. -/
def currentVisibility (nwsV owmV : Option ℚ) : Option ℚ :=
  match nwsVisibility nwsV owmV with
  | some v => safeParseFloat (some v)
  | none => jsOrQ (safeParseFloat owmV) none

/-- The two-stage pressure conversion inside the `try` block:
`(SLP || 0) * 33.8639`, falling back to `owm.pressure || 0`, `null` when
both are zero. -/
def nwsPressure (nwsP owmP : Option ℚ) : Option ℚ :=
  let p1 := nwsP.getD 0 * 33.8639
  if p1 = 0 then
    let p2 := owmP.getD 0
    if p2 = 0 then none else some p2
  else some p1

/-- The emitted `current.pressure` (`toFixed(2)` on the converted value,
else the model fallback). -/
def currentPressure (nwsP owmP : Option ℚ) : Option ℚ :=
  match nwsPressure nwsP owmP with
  | some p => some (jsToFixed2 p)
  | none => jsOrQ (safeParseFloat owmP) none

/-- The emitted `current.wind_direction`:
`safeParseInt(Windd) || safeParseInt(owm.wind_deg) || null`. -/
def currentWindDirection (windd : Option String) (owmDeg : Option ℚ) : Option ℤ :=
  jsOrZ (windd.bind jsParseInt) (jsOrZ (safeParseInt owmDeg) none)

/-- The `raw_owm?.current?.weather[0]?.description` access: the optional
chain short-circuits when `current` is absent, but when `current` exists
and `weather` is absent the subscript `[0]` is applied to `undefined`
and throws. -/
def owmCondDesc (cur : Option OwmCurrent) : Except Unit (Option String) :=
  match cur with
  | none => .ok none
  | some c =>
    match c.weather with
    | none => .error ()
    | some ws => .ok (ws.head?.bind OwmWeatherItem.description)

/-- The emitted `current.condition`: classify the national-service text,
else the model text (whose access may throw), else the Unknown fallback
carrying whichever raw text was available. -/
def currentCondition (raw_nws : Option Nws) (raw_owm : Option Owm) :
    Except Unit Condition :=
  let nwsW := (raw_nws.bind Nws.currentobservation).bind NwsObs.Weather
  match parseWeatherCondition (jsOrS nwsW none) with
  | some c => .ok c
  | none =>
    match owmCondDesc (raw_owm.bind Owm.current) with
    | .error e => .error e
    | .ok dsc =>
      match parseWeatherCondition (jsOrS dsc none) with
      | some c => .ok c
      | none => .ok (unknownCond (jsOrS nwsW (jsOrS dsc none)))

/-- The `sunrise`/`sunset` fields of `location`: epoch zero (absent or
`0` input, rendering as the 1970-01-01 ISO string) becomes `null`. -/
def epochOrNone (v : Option ℚ) : Option ℚ :=
  if v.getD 0 = 0 then none else some (v.getD 0)

/-- One minutely record (`time` modelled by the epoch value). -/
structure MinuteRec where
  time : ℚ
  precipitation : ℚ
deriving DecidableEq

/-- The minutely pass (cannot throw: every access is guarded). -/
def parseMinutely (raw_owm : Option Owm) : List MinuteRec :=
  ((raw_owm.bind Owm.minutely).getD []).map (fun m =>
    { time := m.dt.getD 0
      precipitation := (jsOrQ (safeParseFloat m.precipitation) (some 0)).getD 0 })

/-- One hourly record. -/
structure HourRec where
  time : ℚ
  temperature : Option ℚ
  feels_like : Option ℚ
  humidity : Option ℤ
  wind_speed : Option ℚ
  wind_direction : Option ℤ
  condition : Condition
  cloud_cover : Option ℤ
  precipitation_probability : ℤ
deriving DecidableEq

/-- Processing of one hourly entry; `hour?.weather[0]?.description`
throws when the entry has no `weather` array. -/
def processHour (h : OwmHour) : Except Unit HourRec :=
  match h.weather with
  | none => .error ()
  | some ws =>
    let dsc := ws.head?.bind OwmWeatherItem.description
    .ok
      { time := h.dt.getD 0
        temperature := jsOrQ (safeParseFloat h.temp) none
        feels_like := jsOrQ (safeParseFloat h.feels_like) none
        humidity := jsOrZ (safeParseInt h.humidity) none
        wind_speed := jsOrQ (safeParseFloat h.wind_speed) none
        wind_direction := jsOrZ (safeParseInt h.wind_deg) none
        condition := (parseWeatherCondition (jsOrS dsc none)).getD (unknownCond dsc)
        cloud_cover := jsOrZ (safeParseInt h.clouds) none
        precipitation_probability :=
          (jsOrZ (h.pop.map (fun p => jsTrunc (p * 100))) (some 0)).getD 0 }

/-- The hourly pass: like the alert and mesoscale passes, its
`try`/`catch` wraps the whole loop, keeping entries accumulated before a
throw. -/
def hourlyRun : List OwmHour → List HourRec
  | [] => []
  | h :: rest =>
    match processHour h with
    | .error _ => []
    | .ok r => r :: hourlyRun rest

/-- The hourly pass of `parseWeatherData`. -/
def parseHourly (raw_owm : Option Owm) : List HourRec :=
  hourlyRun ((raw_owm.bind Owm.hourly).getD [])

/-- The `location` block of the response. -/
structure ParsedLocation where
  wfo : Option String
  nearest_radar : String
  sunrise : Option ℚ
  sunset : Option ℚ
deriving DecidableEq

/-- The `current` block of the response. -/
structure ParsedCurrent where
  temperature : Option ℚ
  dew_point : Option ℚ
  humidity : Option ℤ
  wind_speed : Option ℚ
  wind_gust : Option ℚ
  wind_direction : Option ℤ
  condition : Condition
  cloud_cover : Option ℤ
  visibility : Option ℚ
  pressure : Option ℚ
deriving DecidableEq

/-- The `forecasts` aggregate. -/
structure Forecasts where
  spc : List RiskRecord
  minutely : List MinuteRec
  hourly : List HourRec
  daily : List DailyRec
deriving DecidableEq

/-- The full normalized response. -/
structure ParsedData where
  location : ParsedLocation
  current : ParsedCurrent
  alerts : List AlertRec
  mesoscale_discussions : List McdRecord
  forecasts : Forecasts
deriving DecidableEq

/-- `parseWeatherData` of `dataparser.js`.  Every section's `try`/`catch`
is folded into the section functions; the only uncaught throw site is the
`current.condition` expression (`raw_owm?.current?.weather[0]` with
`current` present but `weather` absent, reached when the national-service
text does not classify), which makes the whole call throw.  `today` is
the date stamped on the risk records and `now` the mesoscale clock. -/
def parseWeatherData (point : GeoPoint) (raw_owm : Option Owm)
    (raw_nws : Option Nws) (raw_alerts : Option AlertFeed)
    (spc_outlooks : Option (List Outlook)) (raw_mcd : Option McdFeed)
    (today : ℤ) (now : UtcTime) : Except Unit ParsedData :=
  match currentCondition raw_nws raw_owm with
  | .error e => .error e
  | .ok cond =>
    .ok
      { location :=
          { wfo := jsOrS ((raw_nws.bind Nws.location).bind NwsLoc.wfo) none
            nearest_radar :=
              (jsOrS ((raw_nws.bind Nws.location).bind NwsLoc.radar)
                (some "international")).getD "international"
            sunrise := epochOrNone ((raw_owm.bind Owm.current).bind OwmCurrent.sunrise)
            sunset := epochOrNone ((raw_owm.bind Owm.current).bind OwmCurrent.sunset) }
        current :=
          { temperature :=
              mergeTempField ((raw_nws.bind Nws.currentobservation).bind NwsObs.Temp)
                ((raw_owm.bind Owm.current).bind OwmCurrent.temp)
            dew_point :=
              mergeTempField ((raw_nws.bind Nws.currentobservation).bind NwsObs.Dewp)
                ((raw_owm.bind Owm.current).bind OwmCurrent.dew_point)
            humidity :=
              jsOrZ (safeParseInt ((raw_owm.bind Owm.current).bind OwmCurrent.humidity))
                none
            wind_speed :=
              mergeSpeedField ((raw_nws.bind Nws.currentobservation).bind NwsObs.Winds)
                ((raw_owm.bind Owm.current).bind OwmCurrent.wind_speed)
            wind_gust :=
              mergeSpeedField ((raw_nws.bind Nws.currentobservation).bind NwsObs.Gust)
                ((raw_owm.bind Owm.current).bind OwmCurrent.wind_gust)
            wind_direction :=
              currentWindDirection
                ((raw_nws.bind Nws.currentobservation).bind NwsObs.Windd)
                ((raw_owm.bind Owm.current).bind OwmCurrent.wind_deg)
            condition := cond
            cloud_cover :=
              jsOrZ (safeParseInt ((raw_owm.bind Owm.current).bind OwmCurrent.clouds))
                none
            visibility :=
              currentVisibility
                ((raw_nws.bind Nws.currentobservation).bind NwsObs.Visibility)
                ((raw_owm.bind Owm.current).bind OwmCurrent.visibility)
            pressure :=
              currentPressure ((raw_nws.bind Nws.currentobservation).bind NwsObs.SLP)
                ((raw_owm.bind Owm.current).bind OwmCurrent.pressure) }
        alerts := parseAlerts raw_alerts
        mesoscale_discussions := parseMcds now point raw_mcd
        forecasts :=
          { spc := parseSpcRisks point today spc_outlooks
            minutely := parseMinutely raw_owm
            hourly := parseHourly raw_owm
            daily := parseDaily raw_owm raw_nws } }

lemma sentinelK_eq : sentinelK = 45967 / 180 := by norm_num [sentinelK]

/-- No integer number of hundredths equals the sentinel (its reduced
denominator is 180). -/
lemma int_div100_ne_sentinel (j : ℤ) : (j : ℚ) / 100 ≠ sentinelK := by
  intro h
  rw [sentinelK_eq] at h
  have h1 : (j : ℚ) * 9 = 229835 := by
    field_simp at h
    linarith
  have h2 : (j * 9 : ℤ) = 229835 := by exact_mod_cast h1
  omega

/-- A `toFixed(2)` rendering can never equal the sentinel. -/
lemma jsToFixed2_ne_sentinel (x : ℚ) : jsToFixed2 x ≠ sentinelK := by
  unfold jsToFixed2
  by_cases hx : 0 ≤ x
  · simp only [hx, if_true]
    exact int_div100_ne_sentinel _
  · simp only [hx, if_false]
    intro h
    have h2 : ((-(round (-x * 100)) : ℤ) : ℚ) / 100 = sentinelK := by
      push_cast
      rw [neg_div]
      exact h
    exact int_div100_ne_sentinel _ h2

/-- The national-service conversion itself never emits the sentinel. -/
lemma nwsTempToK_ne_sentinel (v : Option ℚ) : nwsTempToK v ≠ some sentinelK := by
  unfold nwsTempToK
  by_cases h : (v.getD 0 - 32) * 5 / 9 + 273.15 = sentinelK
  · simp [h]
  · simp [h]

/-- C8 (counterexample): the sentinel check applies only to the
national-service conversion.  With the national-service temperature
absent (so its conversion *is* the sentinel and is nulled) and the
global-model current temperature equal to the sentinel value, the merged
`current.temperature` is exactly the sentinel value — it does appear in
the output, contradicting "never appears ... regardless of which source
produced it". -/
theorem C8_sentinel_cex :
    nwsTempToK (some 0) = none ∧
    nwsTempToK none = none ∧
    mergeTempField none (some sentinelK) = some sentinelK := by
  refine ⟨by norm_num [nwsTempToK, sentinelK], by norm_num [nwsTempToK, sentinelK], ?_⟩
  have h0 : nwsTempToK none = none := by norm_num [nwsTempToK, sentinelK]
  rw [mergeTempField, h0]
  have hs : sentinelK ≠ 0 := by norm_num [sentinelK]
  simp [jsOrQ, safeParseFloat, hs]

/-- C8 (amended): the sentinel is treated as absent only when it arises
from the national-service conversion: that conversion never yields the
sentinel (a 0 °F reading is nulled and falls through to the model), and
the national-service branch of the merged field, being a two-decimal
rendering, cannot equal the sentinel either — so a sentinel in
`current.temperature`/`current.dew_point` (both computed by
`mergeTempField` in `parseWeatherData`) can only be the global-model
fallback value, which is *not* filtered. -/
theorem C8_sentinel_only_nws_filtered :
    (∀ v : Option ℚ, nwsTempToK v ≠ some sentinelK) ∧
    (∀ nwsF owmF : Option ℚ,
        mergeTempField nwsF owmF = some sentinelK → owmF = some sentinelK) ∧
    nwsTempToK (some 0) = none := by
  refine ⟨nwsTempToK_ne_sentinel, ?_, by norm_num [nwsTempToK, sentinelK]⟩
  intro nwsF owmF h
  rw [mergeTempField] at h
  cases hn : nwsTempToK nwsF with
  | some t =>
    rw [hn] at h
    injection h with h
    exact absurd h (jsToFixed2_ne_sentinel t)
  | none =>
    rw [hn] at h
    rcases owmF with _ | x
    · simp [jsOrQ, safeParseFloat] at h
    · by_cases hx : x = 0
      · simp [jsOrQ, safeParseFloat, hx] at h
      · simp [jsOrQ, safeParseFloat, hx] at h
        rw [h]

/-- Concrete instantiation of `C8_sentinel_only_nws_filtered`: its second
conjunct applied at the concrete input of the counterexample. -/
theorem C8_sentinel_only_nws_filtered_witness :
    (some sentinelK : Option ℚ) = some sentinelK := by
  have hm : mergeTempField none (some sentinelK) = some sentinelK := by
    have h0 : nwsTempToK none = none := by norm_num [nwsTempToK, sentinelK]
    rw [mergeTempField, h0]
    have hs : sentinelK ≠ 0 := by norm_num [sentinelK]
    simp [jsOrQ, safeParseFloat, hs]
  exact C8_sentinel_only_nws_filtered.2.1 none (some sentinelK) hm

lemma jsOrZ_ne_some_zero (a b : Option ℤ) (hb : b ≠ some 0) :
    jsOrZ a b ≠ some 0 := by
  rcases a with _ | x
  · simp only [jsOrZ]
    exact hb
  · by_cases hx : x = 0
    · simp only [jsOrZ, hx, if_true]
      exact hb
    · simp [jsOrZ, hx]

/-- C10: `current.wind_direction` is
`safeParseInt(Windd) || safeParseInt(owm.wind_deg) || null`, so a
national-service direction that parses to exactly `0` is falsy and falls
through to the model, a model value of `0` is falsy and falls through to
`null`, and no input whatsoever can put `0` in the output. -/
theorem C10_wind_direction_zero_fallback :
    (∀ (windd : Option String) (owmDeg : Option ℚ),
        currentWindDirection windd owmDeg ≠ some 0) ∧
    (∀ (windd : Option String) (owmDeg : Option ℚ),
        windd.bind jsParseInt = some 0 →
        currentWindDirection windd owmDeg = currentWindDirection none owmDeg) ∧
    currentWindDirection (some "0") (some 0) = none ∧
    currentWindDirection (some "0") none = none ∧
    currentWindDirection (some "0") (some 90) = some 90 := by
  have hp : jsParseInt "0" = some 0 := by decide
  have ht0 : jsTrunc 0 = 0 := by norm_num [jsTrunc]
  have ht90 : jsTrunc 90 = 90 := by norm_num [jsTrunc]
  refine ⟨?_, ?_, ?_, ?_, ?_⟩
  · intro windd owmDeg
    apply jsOrZ_ne_some_zero
    apply jsOrZ_ne_some_zero
    exact Option.noConfusion
  · intro windd owmDeg h
    simp [currentWindDirection, h, jsOrZ]
  · simp [currentWindDirection, hp, jsOrZ, safeParseInt, ht0]
  · simp [currentWindDirection, hp, jsOrZ, safeParseInt]
  · simp [currentWindDirection, hp, jsOrZ, safeParseInt, ht90]

/-- Concrete instantiation of `C10_wind_direction_zero_fallback`: a
national-service "0" falls back to the model's direction. -/
theorem C10_wind_direction_zero_fallback_witness :
    currentWindDirection (some "0") (some 90) =
      currentWindDirection none (some 90) :=
  C10_wind_direction_zero_fallback.2.1 (some "0") (some 90) (by decide)

/-- A model document whose `current` block exists but carries no
`weather` array: evaluating `raw_owm?.current?.weather[0]` throws. -/
def owmCrash : Owm :=
  { current := some
      { sunrise := none, sunset := none, temp := none, dew_point := none,
        humidity := none, wind_speed := none, wind_gust := none,
        wind_deg := none, clouds := none, visibility := none, pressure := none,
        weather := none },
    minutely := none, hourly := none, daily := none }

/-- The fully-degraded response for all-null inputs. -/
def emptyParsed : ParsedData :=
  { location :=
      { wfo := none, nearest_radar := "international", sunrise := none,
        sunset := none }
    current :=
      { temperature := none, dew_point := none, humidity := none,
        wind_speed := none, wind_gust := none, wind_direction := none,
        condition := unknownCond none, cloud_cover := none, visibility := none,
        pressure := none }
    alerts := []
    mesoscale_discussions := []
    forecasts := { spc := [], minutely := [], hourly := [], daily := [] } }

/-- C1: the merger is *not* total.  With every input null it does return
a complete degraded `NormalizedForecast`; but with a model document whose
`current` block is present without a `weather` array (and no
national-service condition text to classify), the unguarded subscript in
`current.condition` — `raw_owm?.current?.weather[0]` — throws outside
every `try`/`catch` and the whole call fails.  The spec's "never throws"
contract is the evident intent of the code's pervasive defensive
handling; this expression is the one hole. -/
theorem C1_total_merge_code_bug :
    parseWeatherData samplePt (some owmCrash) none none none none 0 nowSample =
      .error () ∧
    parseWeatherData samplePt none none none none none 0 nowSample =
      .ok emptyParsed := by
  constructor
  · simp [parseWeatherData, currentCondition, owmCondDesc, parseWeatherCondition,
      jsOrS, owmCrash]
  · norm_num [parseWeatherData, currentCondition, owmCondDesc,
      parseWeatherCondition, jsOrS, mergeTempField, nwsTempToK, mergeSpeedField,
      nwsSpeedToMs, currentVisibility, nwsVisibility, currentPressure,
      nwsPressure, currentWindDirection, jsOrZ, jsOrQ, safeParseInt,
      safeParseFloat, epochOrNone, parseAlerts, alertsRun, parseMcds, mcdRun,
      parseSpcRisks, parseMinutely, parseHourly, hourlyRun, parseDaily, dailyRun,
      emptyParsed, unknownCond, sentinelK]
